import Mathlib

/-!
Shallow embedding of the `evm_wallet` package (files
`src/evm_wallet/wallet.py` and `src/evm_wallet/_base_wallet.py`).

The wallet classes are thin wrappers around a web3 RPC client.  All
interaction with the outside world (chain-id query, transaction count,
signing, raw-transaction submission, contract calls) is delegated to the
client library; we model that library as an abstract environment `Env`
of oracles, and the wallet methods as explicit state transitions over a
wallet-state record, returning `Except Err` where the Python code can
raise.

Python dictionaries holding network information are modelled as
association lists over a small universe `PyVal` of Python values, so
that the `KeyError`/`None` behaviour of the source is preserved
(including the `'chaind_id'` typos present in the static network table
of `_base_wallet.py`).
-/

namespace EvmWallet

/-- A small universe of Python values appearing in network-info
dictionaries: strings, integers and `None`. -/
inductive PyVal where
  | vstr (s : String)
  | vint (n : Int)
  | vnone
  deriving DecidableEq, Repr

/-- A Python `dict` with string keys, as an association list. -/
abbrev Dict := List (String × PyVal)

/-- `d[k]` lookup returning `none` when the key is absent
(where Python would raise `KeyError`). -/
def dictGet (d : Dict) (k : String) : Option PyVal :=
  match d with
  | [] => none
  | (k', v) :: rest => if k' == k then some v else dictGet rest k

/-- `d[k] = v` assignment: overwrite the first binding of `k`,
append if absent. -/
def dictSet (d : Dict) (k : String) (v : PyVal) : Dict :=
  match d with
  | [] => [(k, v)]
  | (k', v') :: rest => if k' == k then (k', v) :: rest else (k', v') :: dictSet rest k v

/-- `k in d`. -/
def dictHasKey (d : Dict) (k : String) : Bool :=
  (dictGet d k).isSome

/-- Python `str(v)`, as used when a value is interpolated into an
f-string. -/
def pyStrOf : PyVal → String
  | .vstr s => s
  | .vint n => toString n
  | .vnone => "None"

/-- The exceptions the modelled code can raise. -/
inductive Err where
  /-- `InvalidNetworkInfo` from `evm_wallet.exceptions` (raised by
  `AsyncWallet.__validate_network`). -/
  | invalidNetworkInfo
  /-- `TypeError` with a message (raised by
  `_BaseWallet.__validate_network` and both `get_explorer_url`s). -/
  | typeError (msg : String)
  /-- `ValueError` raised by `_BaseWallet.__validate_chain_id` on a
  chain-id mismatch. -/
  | chainIdMismatch
  /-- `KeyError` on a missing dictionary key. -/
  | keyError (k : String)
  /-- `AttributeError` (e.g. `.lower()` on a non-string). -/
  | attributeError
  /-- An error propagated from the underlying web3 client (RPC failure,
  signing failure, ...). -/
  | web3Error (msg : String)
  deriving DecidableEq, Repr

/-- `_BaseWallet.__network_map`: the static table of supported networks,
transcribed entry by entry.  Four entries (`opBNB`, `opBNB Testnet`,
`Optimism Sepolia`, `Scroll`) spell the chain-id key `'chaind_id'` in
the source; the transcription keeps the typo. -/
def networkMapTable : List (String × Dict) :=
  [ ("Arbitrum Goerli",
      [("chain_id", .vint 421613), ("rpc", .vstr "wss://arbitrum-goerli-rpc.publicnode.com"),
       ("token", .vstr "ETH"), ("explorer", .vstr "https://goerli.arbiscan.io")]),
    ("Arbitrum Sepolia",
      [("chain_id", .vint 421614), ("rpc", .vstr "wss://arbitrum-sepolia-rpc.publicnode.com"),
       ("token", .vstr "ETH"), ("explorer", .vstr "https://sepolia.arbiscan.io")]),
    ("Arbitrum",
      [("chain_id", .vint 42161), ("rpc", .vstr "wss://arbitrum-one-rpc.publicnode.com"),
       ("token", .vstr "ETH"), ("explorer", .vstr "https://arbiscan.io")]),
    ("Avalanche",
      [("chain_id", .vint 43114), ("rpc", .vstr "wss://avalanche-c-chain-rpc.publicnode.com"),
       ("token", .vstr "AVAX"), ("explorer", .vstr "https://snowtrace.io/")]),
    ("Base",
      [("chain_id", .vint 8453), ("rpc", .vstr "wss://base-rpc.publicnode.com"),
       ("token", .vstr "ETH"), ("explorer", .vstr "https://basescan.org/")]),
    ("Base Goerli",
      [("chain_id", .vint 84531), ("rpc", .vstr "https://base-goerli.public.blastapi.io"),
       ("token", .vstr "ETH"), ("explorer", .vstr "https://goerli.basescan.org/")]),
    ("Base Sepolia",
      [("chain_id", .vint 84532), ("rpc", .vstr "wss://base-sepolia-rpc.publicnode.com"),
       ("token", .vstr "ETH"), ("explorer", .vstr "https://sepolia.basescan.org/")]),
    ("BSC",
      [("chain_id", .vint 56), ("rpc", .vstr "wss://bsc-rpc.publicnode.com"),
       ("token", .vstr "BNB"), ("explorer", .vstr "https://bscscan.com")]),
    ("BSC Testnet",
      [("chain_id", .vint 97), ("rpc", .vstr "wss://bsc-testnet-rpc.publicnode.com"),
       ("token", .vstr "BNB"), ("explorer", .vstr "https://testnet.bscscan.com")]),
    ("Ethereum",
      [("chain_id", .vint 1), ("rpc", .vstr "wss://ethereum-rpc.publicnode.com"),
       ("token", .vstr "ETH"), ("explorer", .vstr "https://etherscan.io")]),
    ("Fantom",
      [("chain_id", .vint 250), ("rpc", .vstr "wss://fantom-rpc.publicnode.com"),
       ("token", .vstr "FTM"), ("explorer", .vstr "https://ftmscan.com/")]),
    ("Fantom Testnet",
      [("chain_id", .vint 4002), ("rpc", .vstr "wss://fantom-testnet-rpc.publicnode.com"),
       ("token", .vstr "FTM"), ("explorer", .vstr "https://testnet.ftmscan.com/")]),
    ("Fuji",
      [("chain_id", .vint 43113), ("rpc", .vstr "wss://avalanche-fuji-c-chain-rpc.publicnode.com"),
       ("token", .vstr "AVAX"), ("explorer", .vstr "https://testnet.snowtrace.io")]),
    ("Goerli",
      [("chain_id", .vint 5), ("rpc", .vstr "wss://goerli.gateway.tenderly.co"),
       ("token", .vstr "ETH"), ("explorer", .vstr "https://goerli.etherscan.io")]),
    ("Linea",
      [("chain_id", .vint 59144), ("rpc", .vstr "wss://linea.drpc.org"),
       ("token", .vstr "ETH"), ("explorer", .vstr "https://lineascan.build/")]),
    ("Linea Goerli",
      [("chain_id", .vint 59140), ("rpc", .vstr "wss://linea-goerli.drpc.org"),
       ("token", .vstr "ETH"), ("explorer", .vstr "https://goerli.lineascan.build/")]),
    ("Mumbai",
      [("chain_id", .vint 80001), ("rpc", .vstr "wss://polygon-mumbai-bor-rpc.publicnode.com"),
       ("token", .vstr "MATIC"), ("explorer", .vstr "https://mumbai.polygonscan.com/")]),
    ("opBNB",
      [("chaind_id", .vint 204), ("rpc", .vstr "wss://opbnb-rpc.publicnode.com"),
       ("token", .vstr "BNB"), ("explorer", .vstr "https://opbnb.bscscan.com/")]),
    ("opBNB Testnet",
      [("chaind_id", .vint 5611), ("rpc", .vstr "wss://opbnb-testnet-rpc.publicnode.com"),
       ("token", .vstr "BNB"), ("explorer", .vstr "https://opbnb-testnet.bscscan.com")]),
    ("Optimism",
      [("chain_id", .vint 10), ("rpc", .vstr "wss://optimism-rpc.publicnode.com"),
       ("token", .vstr "ETH"), ("explorer", .vstr "https://optimistic.etherscan.io")]),
    ("Optimism Sepolia",
      [("chaind_id", .vint 11155420), ("rpc", .vstr "wss://optimism-sepolia-rpc.publicnode.com"),
       ("token", .vstr "ETH"), ("explorer", .vstr "https://sepolia-optimism.etherscan.io/")]),
    ("Optimism Goerli",
      [("chain_id", .vint 420), ("rpc", .vstr "wss://optimism-testnet.drpc.org"),
       ("token", .vstr "ETH"), ("explorer", .vstr "https://goerli-optimism.etherscan.io")]),
    ("Polygon",
      [("chain_id", .vint 137), ("rpc", .vstr "wss://polygon-bor-rpc.publicnode.com"),
       ("token", .vstr "MATIC"), ("explorer", .vstr "https://polygonscan.com")]),
    ("Sepolia",
      [("chain_id", .vint 11155111), ("rpc", .vstr "wss://ethereum-sepolia-rpc.publicnode.com"),
       ("token", .vstr "ETH"), ("explorer", .vstr "https://sepolia.etherscan.io")]),
    ("Scroll",
      [("chaind_id", .vint 534352), ("rpc", .vstr "wss://scroll.drpc.org"),
       ("token", .vstr "ETH"), ("explorer", .vstr "https://scrollscan.com")]),
    ("zkSync",
      [("chain_id", .vint 324), ("rpc", .vstr "wss://zksync.drpc.org"),
       ("token", .vstr "ETH"), ("explorer", .vstr "https://explorer.zksync.io")]) ]

/-- Modelled from the spec: the `Network` literal type from
`evm_wallet/types.py` (not under `src/`) lists exactly the recognized
network names — the keys of the static table (`_in_literal(network,
Network)` is membership in it). -/
def networkNames : List String := networkMapTable.map Prod.fst

/-- The table entry for a recognized name (`NETWORK_MAP[network]` /
`cls.__network_map[network]`). -/
def networkMap (name : String) : Dict :=
  match networkMapTable.find? (fun p => p.1 == name) with
  | some p => p.2
  | none => []

/-- Modelled from the spec: the keys of the `NetworkInfo` TypedDict from
`evm_wallet/types.py` (not under `src/`): "{name, chain id, RPC
endpoint, native token symbol, explorer URL}". -/
def networkInfoKeys : List String := ["network", "chain_id", "rpc", "token", "explorer"]

/-- Modelled from the spec: `_has_keys(network, NetworkInfo)` from
`evm_wallet/utils.py` (not under `src/`) — the caller-supplied
dictionary has every key of a complete network-info record. -/
def hasKeysNetworkInfo (d : Dict) : Bool :=
  networkInfoKeys.all (dictHasKey d)

/-- The `network` argument of the constructors and the network setter:
either a network name (a Python `str`) or a network-info dictionary. -/
inductive NetworkOrInfo where
  | name (s : String)
  | info (d : Dict)
  deriving DecidableEq, Repr

/-- `NetworkInfo(network=network, **NETWORK_MAP[network])`: the info
dictionary built for a recognized network name. -/
def mkNameInfo (s : String) : Dict :=
  ("network", .vstr s) :: networkMap s

/-- `AsyncWallet.__validate_network` (`wallet.py`): a recognized name
yields the table entry extended with the `network` key; a dictionary
with all `NetworkInfo` keys is accepted as-is; anything else raises
`InvalidNetworkInfo`.  (A string that is not a recognized name has no
keys, so it falls through to the error branch.) -/
def validateNetworkA (x : NetworkOrInfo) : Except Err Dict :=
  match x with
  | .name s =>
      if networkNames.contains s then .ok (mkNameInfo s)
      else .error .invalidNetworkInfo
  | .info d =>
      if hasKeysNetworkInfo d then .ok d
      else .error .invalidNetworkInfo

/-- The message of the `TypeError` raised by
`_BaseWallet.__validate_network` (truncated to its fixed part). -/
def invalidNetworkMsg : String :=
  "Network information must be represented as NetworkInfo type or name of a supported network."

/-- `_BaseWallet.__validate_network` (`_base_wallet.py`): identical
dispatch, but the failure branch raises `TypeError`. -/
def validateNetworkB (x : NetworkOrInfo) : Except Err Dict :=
  match x with
  | .name s =>
      if networkNames.contains s then .ok (mkNameInfo s)
      else .error (.typeError invalidNetworkMsg)
  | .info d =>
      if hasKeysNetworkInfo d then .ok d
      else .error (.typeError invalidNetworkMsg)

/-- A signed transaction as returned by
`provider.eth.account.sign_transaction`; the wallet only reads its
`rawTransaction` field. -/
structure SignedTx where
  rawTransaction : List Nat
  deriving DecidableEq, Repr

/-- The underlying web3 client library and the remote chain, as a set of
oracles.  RPC endpoints are identified by the `PyVal` stored under the
`rpc` key of the network-info dictionary.  Fallible calls return
`Except Err`. -/
structure Env where
  /-- `provider.eth.chain_id` for the provider built on an RPC endpoint. -/
  chainId : PyVal → Int
  /-- `provider.eth.get_transaction_count(address)`. -/
  txCount : PyVal → String → Nat
  /-- `Account.from_key(pk).address` followed by
  `to_checksum_address`: the checksummed public key of a private key. -/
  addressOf : String → String
  /-- `provider.eth.account.sign_transaction(tx_params, private_key)`. -/
  sign : Dict → String → Except Err SignedTx
  /-- `provider.eth.send_raw_transaction(raw)`; returns the transaction
  hash as bytes. -/
  sendRaw : List Nat → Except Err (List Nat)
  /-- `provider.eth.get_balance(address)` in wei. -/
  getBalance : String → Nat
  /-- `token_contract.functions.balanceOf(address).call()` for the
  contract at a token address. -/
  balanceOf : PyVal → String → Nat
  /-- `token.functions.decimals().call()` for the contract at a token
  address. -/
  decimals : PyVal → Nat

/-- The state of an `AsyncWallet` (`wallet.py`): private key, derived
public key, current network-info dictionary, locally cached nonce, and
cached chain id. -/
structure AsyncWalletState where
  private_key : String
  public_key : String
  network : Dict
  nonce : Nat
  chain_id : Int
  deriving DecidableEq, Repr

/-- The state of a `_BaseWallet` (`_base_wallet.py`): as above but with
no separately cached chain id (it lives inside the network dictionary). -/
structure BaseWalletState where
  private_key : String
  public_key : String
  network : Dict
  nonce : Nat
  deriving DecidableEq, Repr

/-- `network_info['rpc']` — `KeyError` when the key is absent. -/
def getRpc (info : Dict) : Except Err PyVal :=
  match dictGet info "rpc" with
  | some v => .ok v
  | none => .error (.keyError "rpc")

/-- `AsyncWallet.__init__` (`wallet.py` lines 22–43): validate the
network argument, build providers on its RPC endpoint, derive the
public key, fetch the transaction count as the initial nonce, and cache
the live chain id.  No chain-id comparison is performed. -/
def asyncInit (env : Env) (private_key : String) (network : NetworkOrInfo) :
    Except Err AsyncWalletState :=
  match validateNetworkA network with
  | .error e => .error e
  | .ok network_info =>
    match getRpc network_info with
    | .error e => .error e
    | .ok rpc =>
      let public_key := env.addressOf private_key
      .ok { private_key := private_key
            public_key := public_key
            network := network_info
            nonce := env.txCount rpc public_key
            chain_id := env.chainId rpc }

/-- `_BaseWallet.__validate_chain_id` (`_base_wallet.py` lines
320–329): read the live chain id; if the info's `chain_id` entry is not
`None` and differs from it, raise `ValueError` (the error message
interpolates `network_info["network"].lower()`, so a missing or
non-string `network` entry raises `KeyError`/`AttributeError` instead);
otherwise store the live chain id into the dictionary. -/
def validateChainId (env : Env) (rpc : PyVal) (network_info : Dict) : Except Err Dict :=
  let chain_id := env.chainId rpc
  match dictGet network_info "chain_id" with
  | none => .error (.keyError "chain_id")
  | some v =>
      if v != PyVal.vnone && v != PyVal.vint chain_id then
        match dictGet network_info "network" with
        | some (.vstr _) => .error .chainIdMismatch
        | some _ => .error .attributeError
        | none => .error (.keyError "network")
      else
        .ok (dictSet network_info "chain_id" (.vint chain_id))

/-- `_BaseWallet.__init__` (`_base_wallet.py` lines 179–210): validate
the network argument, build a provider on its RPC endpoint, validate
the chain id (mutating the info dictionary), then derive the public key
and fetch the transaction count as the initial nonce. -/
def baseInit (env : Env) (private_key : String) (network : NetworkOrInfo) :
    Except Err BaseWalletState :=
  match validateNetworkB network with
  | .error e => .error e
  | .ok network_info =>
    match getRpc network_info with
    | .error e => .error e
    | .ok rpc =>
      match validateChainId env rpc network_info with
      | .error e => .error e
      | .ok network_info =>
        let public_key := env.addressOf private_key
        .ok { private_key := private_key
              public_key := public_key
              network := network_info
              nonce := env.txCount rpc public_key }

/-- The `network` setter of `AsyncWallet` (`wallet.py` lines 57–66):
validate the new network, swap the provider, re-fetch the nonce as the
transaction count of the (unchanged) public key on the new endpoint,
and refresh the cached chain id. -/
def asyncSetNetwork (env : Env) (w : AsyncWalletState) (value : NetworkOrInfo) :
    Except Err AsyncWalletState :=
  match validateNetworkA value with
  | .error e => .error e
  | .ok network_info =>
    match getRpc network_info with
    | .error e => .error e
    | .ok rpc =>
      .ok { w with
            network := network_info
            nonce := env.txCount rpc w.public_key
            chain_id := env.chainId rpc }

/-- The `network` setter of `_BaseWallet` (`_base_wallet.py` lines
239–253): validate the new network, swap the provider, and re-fetch the
nonce as the transaction count of the (unchanged) public key on the new
endpoint. -/
def baseSetNetwork (env : Env) (w : BaseWalletState) (value : NetworkOrInfo) :
    Except Err BaseWalletState :=
  match validateNetworkB value with
  | .error e => .error e
  | .ok network_info =>
    match getRpc network_info with
    | .error e => .error e
    | .ok rpc =>
      .ok { w with
            network := network_info
            nonce := env.txCount rpc w.public_key }

/-- `AsyncWallet.transact` (`wallet.py` lines 251–262): sign the
parameters with the wallet's private key, submit the raw transaction,
and only after a successful submission increment the cached nonce.  The
result pairs the outcome (transaction hash or propagated exception)
with the wallet state after the call. -/
def transact (env : Env) (w : AsyncWalletState) (tx_params : Dict) :
    Except Err (List Nat) × AsyncWalletState :=
  match env.sign tx_params w.private_key with
  | .error e => (.error e, w)
  | .ok signed_transaction =>
      match env.sendRaw signed_transaction.rawTransaction with
      | .error e => (.error e, w)
      | .ok tx_hash => (.ok tx_hash, { w with nonce := w.nonce + 1 })

/-- `AsyncWallet.get_balance` (`wallet.py` lines 137–146): fetch the
account balance in wei; return it unchanged when `to_wei` is true,
otherwise convert to ether units via `provider.from_wei(balance,
'ether')`, i.e. divide by `10^18`.  Division is modelled exactly over
`ℚ`. -/
def asyncGetBalance (env : Env) (w : AsyncWalletState) (to_wei : Bool) : ℚ :=
  let balance := env.getBalance w.public_key
  if to_wei then (balance : ℚ) else (balance : ℚ) / 10 ^ 18

/-- `Wallet.get_balance` (`wallet.py` lines 368–374): blocks on
`AsyncWallet.get_balance`, but calls `async_method()` with no
arguments, so the `to_wei` parameter it received is dropped and the
asynchronous default `to_wei=False` is always used. -/
def syncGetBalance (env : Env) (w : AsyncWalletState) (_to_wei : Bool) : ℚ :=
  asyncGetBalance env w false

/-- `AsyncWallet.get_balance_of` (`wallet.py` lines 286–300): fetch the
raw token balance via the ERC-20 contract; when `convert` is true also
fetch the token's decimals and divide by `10^decimals` (Python float
division, modelled exactly over `ℚ`). -/
def asyncGetBalanceOf (env : Env) (w : AsyncWalletState) (token : PyVal) (convert : Bool) : ℚ :=
  let balance := env.balanceOf token w.public_key
  if convert then (balance : ℚ) / 10 ^ env.decimals token
  else (balance : ℚ)

/-- `Wallet.get_balance_of` (`wallet.py` lines 481–489): blocks on
`AsyncWallet.get_balance_of`, but calls `async_method(token)` without
forwarding `convert`, so the asynchronous default `convert=True` is
always used. -/
def syncGetBalanceOf (env : Env) (w : AsyncWalletState) (token : PyVal) (_convert : Bool) : ℚ :=
  asyncGetBalanceOf env w token true

/-- `AsyncWallet.estimate_gas` modelled through the environment oracle. -/
structure GasEnv where
  estimate : Dict → Nat

/-- `AsyncWallet.estimate_gas` (`wallet.py` lines 148–156):
`Wei(int(await provider.eth.estimate_gas(tx_params)))`. -/
def asyncEstimateGas (genv : GasEnv) (tx_params : Dict) : Nat :=
  genv.estimate tx_params

/-- `Wallet.estimate_gas` (`wallet.py` lines 376–383): blocks on the
asynchronous method, forwarding `tx_params`. -/
def syncEstimateGas (genv : GasEnv) (tx_params : Dict) : Nat :=
  asyncEstimateGas genv tx_params

/-- The `token` argument of `is_native_token`: a Python `str` or a
(Hex)bytes value. -/
inductive TokenArg where
  | tstr (s : String)
  | tbytes (b : List Nat)
  deriving DecidableEq, Repr

/-- `ZERO_ADDRESS = Web3.to_checksum_address("0x0000...0000")` — the
checksum form of the all-zero address is itself. -/
def ZERO_ADDRESS : String := "0x0000000000000000000000000000000000000000"

/-- ASCII uppercasing of one character, as `str.upper` does on the
ASCII strings appearing here. -/
def pyCharUpper (c : Char) : Char :=
  if 97 ≤ c.toNat && c.toNat ≤ 122 then Char.ofNat (c.toNat - 32) else c

/-- ASCII lowercasing of one character. -/
def pyCharLower (c : Char) : Char :=
  if 65 ≤ c.toNat && c.toNat ≤ 90 then Char.ofNat (c.toNat + 32) else c

/-- Python `token.upper()`: uppercases a `str`; on `bytes` it stays
`bytes` (byte-wise uppercasing). -/
def pyUpper : TokenArg → TokenArg
  | .tstr s => .tstr (String.mk (s.data.map pyCharUpper))
  | .tbytes b => .tbytes (b.map (fun c => if 97 ≤ c && c ≤ 122 then c - 32 else c))

/-- Python `token.lower()`. -/
def pyLower : TokenArg → TokenArg
  | .tstr s => .tstr (String.mk (s.data.map pyCharLower))
  | .tbytes b => .tbytes (b.map (fun c => if 65 ≤ c && c ≤ 90 then c + 32 else c))

/-- Python `token == s` for a `str` `s`: a `bytes` value is never equal
to a `str`. -/
def pyEqStr : TokenArg → String → Bool
  | .tstr t, s => t == s
  | .tbytes _, _ => false

/-- `is_native_token` (`wallet.py` lines 96–111 and `_base_wallet.py`
lines 287–302, whose bodies are identical): the statement
`token.hex()` discards its result, so a bytes token is never converted
to a string; the return value compares `token.upper()` and
`token.lower()` against the native symbol and `token` against the zero
address, all under Python's cross-type equality. -/
def is_native_token (native_token : String) (token : TokenArg) : Bool :=
  pyEqStr (pyUpper token) native_token ||
  pyEqStr (pyLower token) native_token ||
  pyEqStr token ZERO_ADDRESS

/-- A nibble as a lowercase hex digit character. -/
def hexDigit (n : Nat) : Char :=
  if n < 10 then Char.ofNat (48 + n) else Char.ofNat (87 + n)

/-- The hex digits of a byte string, two lowercase digits per byte. -/
def bytesToHexDigits (b : List Nat) : String :=
  String.mk (b.foldr (fun c acc => hexDigit (c / 16 % 16) :: hexDigit (c % 16) :: acc) [])

/-- `HexBytes.hex()`: `"0x"` followed by the digits. -/
def hexBytesHex (b : List Nat) : String :=
  "0x" ++ bytesToHexDigits b

/-- The `tx_hash` argument of `get_explorer_url`: bytes, a `str`, or a
value of some other type (represented here by an `int` or `None`). -/
inductive TxHashArg where
  | bytes (b : List Nat)
  | str (s : String)
  | int (n : Int)
  | none
  deriving DecidableEq, Repr

/-- Whether a value's type is accepted as a transaction hash by
`_BaseWallet.get_explorer_url` (declared `HexBytes | str`). -/
def isTxHashType : TxHashArg → Bool
  | .bytes _ => true
  | .str _ => true
  | _ => false

/-- `self.network["explorer"]` followed by the f-string
`f'.../tx/...'`. -/
def explorerLine (network : Dict) (tx_hash : String) : Except Err String :=
  match dictGet network "explorer" with
  | some v => .ok (pyStrOf v ++ "/tx/" ++ tx_hash)
  | none => .error (.keyError "explorer")

/-- `AsyncWallet.get_explorer_url` (`wallet.py` lines 336–347): a
`HexBytes` hash is converted with `.hex()`; any other type — including
plain `str` — raises `TypeError`; then the URL is
`{explorer}/tx/{tx_hash}`. -/
def asyncGetExplorerUrl (w : AsyncWalletState) (transaction_hash : TxHashArg) :
    Except Err String :=
  match transaction_hash with
  | .bytes b => explorerLine w.network (hexBytesHex b)
  | _ => .error (.typeError "Invalid transaction hash type")

/-- `_BaseWallet.get_explorer_url` (`_base_wallet.py` lines 350–361):
bytes are converted with `.hex()`, a `str` passes through unchanged,
any other type raises `TypeError`; then the URL is
`{explorer}/tx/{tx_hash}`. -/
def baseGetExplorerUrl (w : BaseWalletState) (tx_hash : TxHashArg) :
    Except Err String :=
  match tx_hash with
  | .bytes b => explorerLine w.network (hexBytesHex b)
  | .str s => explorerLine w.network s
  | _ => .error (.typeError "Invalid transaction hash type")

/-! ### Concrete fixtures used to instantiate the theorems -/

/-- An environment whose oracles all succeed. -/
def envOk : Env :=
  { chainId := fun _ => 1
    txCount := fun _ _ => 5
    addressOf := fun _ => "0xAbCd"
    sign := fun _ _ => .ok { rawTransaction := [1, 2, 3] }
    sendRaw := fun _ => .ok [9, 9]
    getBalance := fun _ => 0
    balanceOf := fun _ _ => 0
    decimals := fun _ => 0 }

/-- An environment whose signing oracle raises. -/
def envSignFail : Env :=
  { envOk with sign := fun _ _ => .error (.web3Error "bad key") }

/-- An environment holding a token balance of `5` with `1` decimal. -/
def envBal : Env :=
  { envOk with balanceOf := fun _ _ => 5, decimals := fun _ => 1 }

/-- An environment holding a native balance of exactly one ether. -/
def envWei : Env :=
  { envOk with getBalance := fun _ => 10 ^ 18 }

/-- A concrete `AsyncWallet` state on the Ethereum table entry. -/
def wEx : AsyncWalletState :=
  { private_key := "0xkey"
    public_key := "0xAbCd"
    network := mkNameInfo "Ethereum"
    nonce := 5
    chain_id := 1 }

/-- A concrete `_BaseWallet` state on the Ethereum table entry. -/
def bwEx : BaseWalletState :=
  { private_key := "0xkey"
    public_key := "0xAbCd"
    network := mkNameInfo "Ethereum"
    nonce := 5 }

/-- `wEx` after switching to the Polygon table entry under `envOk`. -/
def wExP : AsyncWalletState :=
  { private_key := "0xkey"
    public_key := "0xAbCd"
    network := mkNameInfo "Polygon"
    nonce := 5
    chain_id := 1 }

/-- `bwEx` after switching to the Polygon table entry under `envOk`. -/
def bwExP : BaseWalletState :=
  { private_key := "0xkey"
    public_key := "0xAbCd"
    network := mkNameInfo "Polygon"
    nonce := 5 }

/-- A caller-supplied network-info dictionary with all five keys whose
chain id `999` differs from the live chain id `1` reported by `envOk`. -/
def infoMismatch : Dict :=
  [("network", .vstr "Custom"), ("chain_id", .vint 999),
   ("rpc", .vstr "http://localhost:1"), ("token", .vstr "TST"),
   ("explorer", .vstr "https://example.org")]

/-! ### Specification predicates for network validation (claim C6) -/

/-- The argument is a recognized network name from the static table. -/
def recognizedName (x : NetworkOrInfo) : Prop :=
  ∃ s, x = .name s ∧ networkNames.contains s = true

/-- The argument is a structure with all the keys of a complete
network-info record. -/
def completeInfo (x : NetworkOrInfo) : Prop :=
  ∃ d, x = .info d ∧ hasKeysNetworkInfo d = true

/-- The network info corresponding to a validation argument: the table
entry (extended with the `network` key) for a name, the structure
itself for explicit info. -/
def yieldsInfo (x : NetworkOrInfo) (d : Dict) : Prop :=
  match x with
  | .name s => d = mkNameInfo s
  | .info d0 => d = d0

/-! ### Claim theorems -/

/-- Claim C1: for every wallet and every set of transaction parameters,
if `transact` succeeds (signing and raw-transaction submission do not
raise), then the wallet's locally cached nonce after the call equals
the cached nonce before the call plus exactly one. -/
theorem transact_success_increments_nonce (env : Env) (w w' : AsyncWalletState)
    (tx_params : Dict) (tx_hash : List Nat)
    (hok : transact env w tx_params = (.ok tx_hash, w')) :
    w'.nonce = w.nonce + 1 := by
  unfold transact at hok
  cases hs : env.sign tx_params w.private_key with
  | error e => rw [hs] at hok; simp at hok
  | ok signed =>
    rw [hs] at hok
    dsimp only at hok
    cases hr : env.sendRaw signed.rawTransaction with
    | error e => rw [hr] at hok; simp at hok
    | ok h =>
      rw [hr] at hok
      have hw : ({ w with nonce := w.nonce + 1 } : AsyncWalletState) = w' :=
        congrArg Prod.snd hok
      rw [← hw]

/-- Witness for C1: a concrete successful submission under `envOk`
bumps the nonce of `wEx` from `5` to `6`. -/
theorem transact_success_increments_nonce_witness :
    (transact envOk wEx []).2.nonce = wEx.nonce + 1 :=
  transact_success_increments_nonce envOk wEx (transact envOk wEx []).2 [] [9, 9] rfl

/-- Claim C10: for every wallet and every set of transaction
parameters, if `transact` fails (signing or raw-transaction submission
raises), the wallet state — in particular the cached nonce — is
unchanged: the increment happens only after the send call returns
successfully. -/
theorem transact_failure_preserves_state (env : Env) (w w' : AsyncWalletState)
    (tx_params : Dict) (e : Err)
    (hf : transact env w tx_params = (.error e, w')) :
    w' = w := by
  unfold transact at hf
  cases hs : env.sign tx_params w.private_key with
  | error e' =>
    rw [hs] at hf
    exact (congrArg Prod.snd hf).symm
  | ok signed =>
    rw [hs] at hf
    dsimp only at hf
    cases hr : env.sendRaw signed.rawTransaction with
    | error e' =>
      rw [hr] at hf
      exact (congrArg Prod.snd hf).symm
    | ok h => rw [hr] at hf; simp at hf

/-- Witness for C10: under `envSignFail` the signing oracle raises and
`wEx` is returned untouched. -/
theorem transact_failure_preserves_state_witness :
    (transact envSignFail wEx []).2 = wEx :=
  transact_failure_preserves_state envSignFail wEx (transact envSignFail wEx []).2 []
    (.web3Error "bad key") rfl

/-- Counterexample to C2: `AsyncWallet.__init__` (`wallet.py`) performs
no chain-id comparison at all.  Under `envOk` the live chain id is `1`,
the explicit network-info `infoMismatch` supplies chain id `999`, yet
construction succeeds. -/
theorem async_init_ignores_chain_id_mismatch :
    envOk.chainId (PyVal.vstr "http://localhost:1") ≠ (999 : Int) ∧
    asyncInit envOk "0xkey" (.info infoMismatch) =
      .ok { private_key := "0xkey"
            public_key := "0xAbCd"
            network := infoMismatch
            nonce := 5
            chain_id := 1 } := by
  refine ⟨by decide, ?_⟩
  rfl

/-- Claim C2 (amended): the chain-id check lives in
`_BaseWallet.__init__` only.  For explicit network-info with all keys,
a supplied integer chain id differing from the live one makes
construction raise the chain-id-mismatch `ValueError`; when it is equal
the check passes, construction succeeds and the stored info carries the
live chain id. -/
theorem base_init_chain_id_check (env : Env) (pk nm : String) (info : Dict)
    (c : Int) (r : PyVal)
    (hk : hasKeysNetworkInfo info = true)
    (hr : dictGet info "rpc" = some r)
    (hc : dictGet info "chain_id" = some (.vint c))
    (hn : dictGet info "network" = some (.vstr nm)) :
    (env.chainId r ≠ c → baseInit env pk (.info info) = .error .chainIdMismatch) ∧
    (env.chainId r = c →
      baseInit env pk (.info info) =
        .ok { private_key := pk
              public_key := env.addressOf pk
              network := dictSet info "chain_id" (.vint (env.chainId r))
              nonce := env.txCount r (env.addressOf pk) }) := by
  constructor
  · intro hne
    simp only [baseInit, validateNetworkB, hk, if_true, Except.bind, getRpc, hr,
      validateChainId, hc, hn]
    have : (PyVal.vint c != PyVal.vnone && PyVal.vint c != PyVal.vint (env.chainId r)) = true := by
      simp [bne]
      exact fun h => hne h.symm
    rw [this]
    rfl
  · intro heq
    simp only [baseInit, validateNetworkB, hk, if_true, Except.bind, getRpc, hr,
      validateChainId, hc, hn, heq]
    have : (PyVal.vint c != PyVal.vnone && PyVal.vint c != PyVal.vint c) = false := by
      simp [bne]
    rw [this]
    rfl

/-- Witness for the amended C2: under `envOk` (live chain id `1`) the
explicit info `infoMismatch` (chain id `999`) makes `_BaseWallet`
construction fail with the chain-id-mismatch error. -/
theorem base_init_chain_id_check_witness :
    baseInit envOk "0xkey" (.info infoMismatch) = .error .chainIdMismatch :=
  (base_init_chain_id_check envOk "0xkey" "Custom" infoMismatch 999
    (.vstr "http://localhost:1") rfl rfl rfl rfl).1 (by decide)

/-- Claim C3, evaluated at the failing input: under `envBal` the raw
token balance is `5` with `1` decimal.  The asynchronous variant obeys
the claim (`convert=False` returns the raw balance), but the
synchronous `Wallet.get_balance_of` drops its `convert` argument when
delegating, so `convert=False` still divides and returns `1/2` instead
of `5`. -/
theorem sync_get_balance_of_ignores_convert :
    asyncGetBalanceOf envBal wEx (.vstr "0xT0K") true = 1 / 2 ∧
    asyncGetBalanceOf envBal wEx (.vstr "0xT0K") false = 5 ∧
    syncGetBalanceOf envBal wEx (.vstr "0xT0K") false = 1 / 2 := by
  refine ⟨?_, ?_, ?_⟩ <;>
    norm_num [asyncGetBalanceOf, syncGetBalanceOf, envBal, envOk]

/-- Counterexample to C4: under `envWei` the account balance is `10^18`
wei.  `Wallet.get_balance` drops its `to_wei` argument when blocking on
the asynchronous method, so with `to_wei=True` the synchronous variant
returns `1` (ether units) while the asynchronous one returns `10^18`
(wei). -/
theorem sync_get_balance_differs_from_async :
    syncGetBalance envWei wEx true ≠ asyncGetBalance envWei wEx true := by
  norm_num [syncGetBalance, asyncGetBalance, envWei, envOk]

/-- Claim C4 (amended): synchronous variants block on the asynchronous
ones, and forward their arguments except that `Wallet.get_balance`
drops `to_wei` and `Wallet.get_balance_of` drops `convert`: for every
flag value those two behave as the asynchronous method at its defaults
(`to_wei=False`, `convert=True`), while e.g. `estimate_gas` forwards
its parameters unchanged. -/
theorem sync_delegation_behaviour (env : Env) (genv : GasEnv)
    (w : AsyncWalletState) (token : PyVal) (tx_params : Dict) (b c : Bool) :
    syncEstimateGas genv tx_params = asyncEstimateGas genv tx_params ∧
    syncGetBalance env w b = asyncGetBalance env w false ∧
    syncGetBalanceOf env w token c = asyncGetBalanceOf env w token true :=
  ⟨rfl, rfl, rfl⟩

/-- Claim C5, evaluated at the failing input: `is_native_token`
discards the result of `token.hex()`, so the zero address in bytes form
(twenty zero bytes) is rejected, although the claim requires it to be
accepted.  The string forms behave as claimed: the native symbol is
matched case-insensitively (for the all-caps symbols of the static
table) and the zero-address string is accepted. -/
theorem is_native_token_rejects_zero_address_bytes :
    is_native_token "ETH" (.tbytes (List.replicate 20 0)) = false ∧
    is_native_token "ETH" (.tstr ZERO_ADDRESS) = true ∧
    is_native_token "ETH" (.tstr "eth") = true ∧
    is_native_token "ETH" (.tstr "Eth") = true ∧
    is_native_token "ETH" (.tstr "BNB") = false := by
  refine ⟨rfl, ?_, ?_, ?_, ?_⟩ <;> decide

/-- Claim C6: a recognized network name or a structure with all the
keys of a complete network-info record validates successfully and
yields the corresponding network info (in both validators); any other
argument raises the invalid-network-specification error —
`InvalidNetworkInfo` in `AsyncWallet.__validate_network`, `TypeError`
in `_BaseWallet.__validate_network`. -/
theorem validate_network_cases (x : NetworkOrInfo) :
    (recognizedName x ∨ completeInfo x →
      ∃ d, validateNetworkA x = .ok d ∧ validateNetworkB x = .ok d ∧ yieldsInfo x d) ∧
    (¬(recognizedName x ∨ completeInfo x) →
      validateNetworkA x = .error .invalidNetworkInfo ∧
      ∃ m, validateNetworkB x = .error (.typeError m)) := by
  constructor
  · rintro (⟨s, rfl, hs⟩ | ⟨d, rfl, hd⟩)
    · have hs' : s ∈ networkNames := by simpa using hs
      exact ⟨mkNameInfo s, by simp [validateNetworkA, hs'], by simp [validateNetworkB, hs'],
        by simp [yieldsInfo]⟩
    · exact ⟨d, by simp [validateNetworkA, hd], by simp [validateNetworkB, hd],
        by simp [yieldsInfo]⟩
  · intro hno
    cases x with
    | name s =>
      have hs : networkNames.contains s = false := by
        by_contra hcon
        exact hno (Or.inl ⟨s, rfl, by simpa using hcon⟩)
      have hs' : s ∉ networkNames := by simpa using hs
      exact ⟨by simp [validateNetworkA, hs'], invalidNetworkMsg,
        by simp [validateNetworkB, hs']⟩
    | info d =>
      have hd : hasKeysNetworkInfo d = false := by
        by_contra hcon
        exact hno (Or.inr ⟨d, rfl, by simpa using hcon⟩)
      exact ⟨by simp [validateNetworkA, hd], invalidNetworkMsg,
        by simp [validateNetworkB, hd]⟩

/-- Witness for C6: the recognized name `"Ethereum"` validates in both
validators and yields the Ethereum table entry. -/
theorem validate_network_cases_witness :
    ∃ d, validateNetworkA (.name "Ethereum") = .ok d ∧
      validateNetworkB (.name "Ethereum") = .ok d ∧
      yieldsInfo (.name "Ethereum") d :=
  (validate_network_cases (.name "Ethereum")).1 (Or.inl ⟨"Ethereum", rfl, by decide⟩)

/-- Claim C7: for a transaction hash given as bytes, both
`get_explorer_url`s return exactly the configured explorer URL followed
by `/tx/` followed by the hex form of the hash (the `0x`-prefixed hex
digits produced by `HexBytes.hex()`). -/
theorem get_explorer_url_format (w : AsyncWalletState) (bw : BaseWalletState)
    (b : List Nat) (v v' : PyVal)
    (h : dictGet w.network "explorer" = some v)
    (h' : dictGet bw.network "explorer" = some v') :
    asyncGetExplorerUrl w (.bytes b) = .ok (pyStrOf v ++ "/tx/" ++ hexBytesHex b) ∧
    baseGetExplorerUrl bw (.bytes b) = .ok (pyStrOf v' ++ "/tx/" ++ hexBytesHex b) := by
  constructor
  · simp [asyncGetExplorerUrl, explorerLine, h]
  · simp [baseGetExplorerUrl, explorerLine, h']

/-- Witness for C7: on the Ethereum table entry the hash `0xabcd`
yields `https://etherscan.io/tx/0xabcd` from both variants. -/
theorem get_explorer_url_format_witness :
    asyncGetExplorerUrl wEx (.bytes [171, 205]) =
      .ok (pyStrOf (.vstr "https://etherscan.io") ++ "/tx/" ++ hexBytesHex [171, 205]) ∧
    baseGetExplorerUrl bwEx (.bytes [171, 205]) =
      .ok (pyStrOf (.vstr "https://etherscan.io") ++ "/tx/" ++ hexBytesHex [171, 205]) :=
  get_explorer_url_format wEx bwEx [171, 205] (.vstr "https://etherscan.io")
    (.vstr "https://etherscan.io") rfl rfl

/-- Claim C8: an input to `get_explorer_url` whose type is not a valid
transaction-hash representation (neither bytes nor `str`) makes both
variants raise the invalid-transaction-hash-type `TypeError` instead of
returning a URL. -/
theorem get_explorer_url_invalid_type (w : AsyncWalletState) (bw : BaseWalletState)
    (a : TxHashArg) (h : isTxHashType a = false) :
    (∃ m, asyncGetExplorerUrl w a = .error (.typeError m)) ∧
    (∃ m, baseGetExplorerUrl bw a = .error (.typeError m)) := by
  cases a <;> simp_all [isTxHashType, asyncGetExplorerUrl, baseGetExplorerUrl]

/-- Witness for C8: the integer `3` is not a transaction-hash type and
is rejected by both variants. -/
theorem get_explorer_url_invalid_type_witness :
    (∃ m, asyncGetExplorerUrl wEx (.int 3) = .error (.typeError m)) ∧
    (∃ m, baseGetExplorerUrl bwEx (.int 3) = .error (.typeError m)) :=
  get_explorer_url_invalid_type wEx bwEx (.int 3) rfl

/-- Claim C9: when the network setter accepts its argument, the private
key and public key are unchanged, and the cached nonce is re-fetched as
the transaction count of the unchanged public key on the new network's
RPC endpoint — in both the `AsyncWallet` and the `_BaseWallet` setter. -/
theorem set_network_frame (env : Env) (w w' : AsyncWalletState)
    (bw bw' : BaseWalletState) (v v' : NetworkOrInfo)
    (hA : asyncSetNetwork env w v = .ok w')
    (hB : baseSetNetwork env bw v' = .ok bw') :
    w'.private_key = w.private_key ∧ w'.public_key = w.public_key ∧
    (∃ r, dictGet w'.network "rpc" = some r ∧ w'.nonce = env.txCount r w.public_key) ∧
    bw'.private_key = bw.private_key ∧ bw'.public_key = bw.public_key ∧
    (∃ r, dictGet bw'.network "rpc" = some r ∧ bw'.nonce = env.txCount r bw.public_key) := by
  unfold asyncSetNetwork at hA
  unfold baseSetNetwork at hB
  cases hva : validateNetworkA v with
  | error e => rw [hva] at hA; simp at hA
  | ok info =>
    rw [hva] at hA
    cases hra : dictGet info "rpc" with
    | none => simp [getRpc, hra] at hA
    | some r =>
      simp only [getRpc, hra] at hA
      cases hvb : validateNetworkB v' with
      | error e => rw [hvb] at hB; simp at hB
      | ok info' =>
        rw [hvb] at hB
        cases hrb : dictGet info' "rpc" with
        | none => simp [getRpc, hrb] at hB
        | some r' =>
          simp only [getRpc, hrb] at hB
          cases hA
          cases hB
          exact ⟨rfl, rfl, ⟨r, hra, rfl⟩, rfl, rfl, ⟨r', hrb, rfl⟩⟩

/-- Witness for C9: switching `wEx` and `bwEx` to the Polygon table
entry under `envOk` keeps both keys and re-fetches the nonce from the
Polygon endpoint. -/
theorem set_network_frame_witness :
    wExP.private_key = wEx.private_key ∧ wExP.public_key = wEx.public_key ∧
    (∃ r, dictGet wExP.network "rpc" = some r ∧ wExP.nonce = envOk.txCount r wEx.public_key) ∧
    bwExP.private_key = bwEx.private_key ∧ bwExP.public_key = bwEx.public_key ∧
    (∃ r, dictGet bwExP.network "rpc" = some r ∧ bwExP.nonce = envOk.txCount r bwEx.public_key) :=
  set_network_frame envOk wEx wExP bwEx bwExP (.name "Polygon") (.name "Polygon") rfl rfl

end EvmWallet
